import Mathlib

/-!
  # Verification of folder2sprite

  Shallow embedding of `src/folder2sprite.jsx` (a Photoshop sprite-sheet
  packing script) and proofs about it.

  Modelling conventions:
  * Photoshop's layer collection is a `List Layer` with index 0 the topmost
    layer, matching the scripting DOM; `ElementPlacement.PLACEATBEGINNING`
    prepends.  The placeholder layer created by `documents.add` sits at the
    end (bottom) of the list, which is exactly the layer `cleanUp` removes
    via `artLayers[layers.length - 1]`.
  * `addLayer` translates the duplicated layer so that its bounding box's
    top-left corner lands exactly at the requested coordinates, so a layer
    is modelled by its name and that corner.  `trim` crops to the union
    bounding box of all content; since the first accepted image is anchored
    at the origin, trimming leaves the recorded corners unchanged, so
    `cleanUp` only drops the placeholder layer.
  * A Photoshop `UnitValue` such as `10 px` is printed by the script through
    `toString().split(' ').join('')`; the numeric bound is modelled as a
    `Nat` and that rendering as `toString`.
  * The `folder` argument of `createSprite` is `Option (List FileEntry)`:
    `none` models a falsy folder (the user cancelled the selection dialog),
    `some files` models a chosen folder with its directory entries.  The
    user-driven retry is recorded in the `reprompted` flag of the outcome.
  * Counters are JavaScript numbers that stay non-negative integers here,
    so they are modelled as `Nat`.  For `LIMIT = 0` JavaScript evaluates
    `++counter % 0` to `NaN`, and `NaN === 0` is false; the `Nat` model
    agrees because `(c + 1) % 0 = c + 1 ≠ 0`.
-/

namespace Folder2Sprite

/-- Lowercasing of a string, modelling `String.prototype.toLowerCase` on the
ASCII file names the claims are about. -/
def strLower (s : String) : String := String.mk (s.data.map Char.toLower)

/-- Does the character list `s` start with the pattern `p`? -/
def startsWithChars : List Char → List Char → Bool
  | [], _ => true
  | _ :: _, [] => false
  | p :: ps, c :: cs => p == c && startsWithChars ps cs

/-- Substring containment on character lists, modelling
`String.prototype.indexOf(pat) !== -1`. -/
def containsSub : List Char → List Char → Bool
  | [], pat => pat.isEmpty
  | s@(_ :: rest), pat => startsWithChars pat s || containsSub rest pat

/-- The `supported_types` array of `isValidFile` (line 84 of the source). -/
def supported_types : List String := [".jpg", ".jpeg", ".gif", ".png", ".tif"]

/-- Embedding of `isValidFile` (lines 82-96): the loop with early return is
a disjunction over the supported extensions, each tested by substring
containment (`indexOf !== -1`). -/
def isValidFile (filename : String) : Bool :=
  supported_types.any (fun ext => containsSub filename.data ext.data)

/-- The file filter as invoked at line 241 of the source:
`isValidFile(image_file.name.toLowerCase())`. -/
def isValidImageName (filename : String) : Bool :=
  isValidFile (strLower filename)

/-- Characters of `name` before its last dot, modelling
`doc_name.substring(0, doc_name.lastIndexOf('.'))` (line 152).  When there
is no dot, `lastIndexOf` is `-1` and `substring(0, -1)` clamps to the empty
string, which the final `else` branch reproduces. -/
def upToLastDot : List Char → List Char
  | [] => []
  | c :: rest => if rest.contains '.' then c :: upToLastDot rest else []

/-- Layer naming: the source file name with its final extension stripped. -/
def stripExt (s : String) : String := String.mk (upToLastDot s.data)

/-- A directory entry: its name and whether it is a plain file
(`instanceof File`; subfolders are `Folder` instances). -/
structure FileEntry where
  name : String
  isFile : Bool
deriving DecidableEq

/-- The acceptance test of line 241:
`(image_file instanceof File) && isValidFile(image_file.name.toLowerCase())`. -/
def accepted (f : FileEntry) : Bool :=
  f.isFile && isValidImageName f.name

/-- A layer of the sprite document: its name and the top-left corner of its
bounding box (`bounds[0]`, `bounds[1]`). -/
structure Layer where
  name : String
  x : Nat
  y : Nat
deriving DecidableEq

/-- Placement coordinates handed to `addLayer` (lines 252-255). -/
structure Coord where
  x : Nat
  y : Nat
deriving DecidableEq

/-- The single empty layer a fresh `documents.add` document starts with. -/
def placeholder : Layer := { name := "Layer 1", x := 0, y := 0 }

/-- Embedding of `createCanvas` (lines 103-118): a fresh oversized
transparent document holding only the placeholder layer. -/
def createCanvas : List Layer := [placeholder]

/-- Embedding of `addLayer` (lines 128-165): duplicate the image as the new
topmost layer (`PLACEATBEGINNING` prepends), rename it to the file name
without its extension, and translate it so its bounding box's top-left
corner is exactly `coordinates`. -/
def addLayer (source_name : String) (doc : List Layer) (coordinates : Coord) :
    List Layer :=
  { name := stripExt source_name, x := coordinates.x, y := coordinates.y } :: doc

/-- Embedding of `cleanUp` (lines 172-177): remove the bottommost layer
(`artLayers[layers.length - 1]`, the placeholder); `revealAll`/`trim` keep
the recorded corners because the run anchors content at the origin. -/
def cleanUp (doc : List Layer) : List Layer := doc.dropLast

/-- The JSON record written for one layer at line 197.  The `x` and `y`
values are string literals, and `y` carries a leading minus sign. -/
def jsonObj (l : Layer) : String :=
  "\x7b\"layer\": \"" ++ l.name ++ "\", \"x\": \"" ++ toString l.x ++
    "\", \"y\": \"-" ++ toString l.y ++ "\"\x7d"

/-- The CSS rule written for one layer at line 203; both coordinates carry a
leading minus sign. -/
def cssRule (l : Layer) : String :=
  "." ++ l.name ++ " \x7bbackground-position: -" ++ toString l.x ++ " -" ++
    toString l.y ++ ";\x7d"

/-- The character stream produced by the JSON branch of the export loop
(lines 195-201) while the loop counter counts down from `i` to 0: each
object line is followed by a comma except the one at index 0, written last. -/
def jsonLines (layers : List Layer) : Nat → String
  | 0 => jsonObj (layers.getD 0 placeholder) ++ "\n"
  | i + 1 =>
      jsonObj (layers.getD (i + 1) placeholder) ++ "\n" ++ "," ++
        jsonLines layers i

/-- The character stream produced by the CSS branch of the export loop
(line 203) while the loop counter counts down from `i` to 0. -/
def cssLines (layers : List Layer) : Nat → String
  | 0 => cssRule (layers.getD 0 placeholder) ++ "\n"
  | i + 1 => cssRule (layers.getD (i + 1) placeholder) ++ "\n" ++ cssLines layers i

/-- Embedding of `outputCoordinates` (lines 185-211) as the character stream
written to the scripting console.  The format is the lowercased
`OUTPUT_FORMAT`; the loop runs from `layers.length - 1` down to 0 and is
skipped entirely for an empty collection (the JavaScript loop starts at
`-1` then). -/
def outputCoordinates (output_format : String) (layers : List Layer) : String :=
  let format := strLower output_format
  (if format = "json" then "[\n" else "") ++
    (if layers.isEmpty then ""
     else if format = "json" then jsonLines layers (layers.length - 1)
     else cssLines layers (layers.length - 1)) ++
    (if format = "json" then "]\n" else "")

/-- The process-wide user variables of lines 25-56. -/
structure Config where
  layout : String
  limit : Nat
  col_spacing : Nat
  row_spacing : Nat
  output_format : String
deriving DecidableEq

/-- The mutable state of the `createSprite` loop (lines 238-273): the
canvas-exists flag, the document, the two grid counters, plus two ghost
fields used only for specification — `creations` counts `createCanvas`
calls and `cells` records the `(col_index, row_index)` pair read for each
accepted image, in acceptance order. -/
structure RunState where
  new_canvas : Bool
  doc : List Layer
  col_index : Nat
  row_index : Nat
  creations : Nat
  cells : List (Nat × Nat)
deriving DecidableEq

/-- The loop state right before the first iteration (lines 234-236). -/
def initState : RunState :=
  { new_canvas := false, doc := [], col_index := 0, row_index := 0,
    creations := 0, cells := [] }

/-- One iteration of the `createSprite` loop body (lines 238-273): skip
entries that are not accepted; otherwise create the canvas if it does not
exist yet, add the image as a layer at
`(COL_SPACING * col_index, ROW_SPACING * row_index)`, then advance the
counters — the primary counter (rows for `LAYOUT === 'rows'`, columns
otherwise) is pre-incremented and wraps when divisible by `LIMIT`, stepping
the secondary counter. -/
def processFile (cfg : Config) (st : RunState) (f : FileEntry) : RunState :=
  if accepted f then
    let st1 :=
      if st.new_canvas = false then
        { st with
            doc := createCanvas
            new_canvas := true
            creations := st.creations + 1 }
      else st
    let st2 :=
      { st1 with
          doc := addLayer f.name st1.doc
            { x := cfg.col_spacing * st1.col_index
              y := cfg.row_spacing * st1.row_index }
          cells := st1.cells ++ [(st1.col_index, st1.row_index)] }
    if cfg.layout = "rows" then
      if (st2.row_index + 1) % cfg.limit = 0 then
        { st2 with row_index := 0, col_index := st2.col_index + 1 }
      else
        { st2 with row_index := st2.row_index + 1 }
    else
      if (st2.col_index + 1) % cfg.limit = 0 then
        { st2 with col_index := 0, row_index := st2.row_index + 1 }
      else
        { st2 with col_index := st2.col_index + 1 }
  else st

/-- The whole `for` loop of `createSprite` over the folder's entries. -/
def runFiles (cfg : Config) (files : List FileEntry) : RunState :=
  files.foldl (processFile cfg) initState

/-- Observable outcome of one `createSprite` call: how many canvases were
created, whether `cleanUp`/`outputCoordinates` ran, the exported text, and
whether the retry `confirm` dialog was shown. -/
structure Outcome where
  canvasCreations : Nat
  finalized : Bool
  output : String
  reprompted : Bool
deriving DecidableEq

/-- Embedding of `createSprite` (lines 218-290): with a truthy folder, run
the loop, and only if a canvas was created run `cleanUp` and
`outputCoordinates`; with a falsy folder (cancelled dialog) show the
retry prompt.  The recursive retry itself is user-driven and outside the
single-run outcome. -/
def createSprite (cfg : Config) (folder : Option (List FileEntry)) : Outcome :=
  match folder with
  | some files =>
      let st := runFiles cfg files
      if st.new_canvas then
        { canvasCreations := st.creations, finalized := true,
          output := outputCoordinates cfg.output_format (cleanUp st.doc),
          reprompted := false }
      else
        { canvasCreations := st.creations, finalized := false,
          output := "", reprompted := false }
  | none =>
      { canvasCreations := 0, finalized := false, output := "",
        reprompted := true }

/-- Specification-side closed form of the grid cell for the `k`-th accepted
image: the pair `(col_index, row_index)` read for it.  Under `rows` layout
the row counter is primary (wraps modulo `limit`), otherwise the column
counter is. -/
def cellFor (layout : String) (limit k : Nat) : Nat × Nat :=
  if layout = "rows" then (k / limit, k % limit) else (k % limit, k / limit)

/-- Specification-side layer produced for the `k`-th accepted image. -/
def specLayer (cfg : Config) (k : Nat) (f : FileEntry) : Layer :=
  { name := stripExt f.name,
    x := cfg.col_spacing * (cellFor cfg.layout cfg.limit k).1,
    y := cfg.row_spacing * (cellFor cfg.layout cfg.limit k).2 }

/-- Specification-side layers for a list of accepted images whose first
element has ordinal `k`, in acceptance order. -/
def specLayersFrom (cfg : Config) : Nat → List FileEntry → List Layer
  | _, [] => []
  | k, f :: rest => specLayer cfg k f :: specLayersFrom cfg (k + 1) rest

/-- Specification-side trace of the grid cells read for `n` accepted
images. -/
def specCells (layout : String) (limit n : Nat) : List (Nat × Nat) :=
  (List.range n).map (cellFor layout limit)

/-- The loop state after accepting exactly the images in `acc` (in order):
the document holds their layers topmost-first above the placeholder, the
counters encode the next cell, and the ghost fields record one canvas
creation and the cell trace. -/
def stateFor (cfg : Config) (acc : List FileEntry) : RunState :=
  { new_canvas := !acc.isEmpty,
    doc := (specLayersFrom cfg 0 acc).reverse ++
      (if acc.isEmpty then [] else [placeholder]),
    col_index := (cellFor cfg.layout cfg.limit acc.length).1,
    row_index := (cellFor cfg.layout cfg.limit acc.length).2,
    creations := if acc.isEmpty then 0 else 1,
    cells := specCells cfg.layout cfg.limit acc.length }

/-- Separator-joined concatenation: the shape of the export stream, with a
separator between consecutive entries and none after the last. -/
def joinSep (sep : String) : List String → String
  | [] => ""
  | [a] => a
  | a :: b :: rest => a ++ sep ++ joinSep sep (b :: rest)

/-- Plain concatenation of a list of strings. -/
def concatAll : List String → String
  | [] => ""
  | a :: rest => a ++ concatAll rest

/-! ## Arithmetic of the wrapping counters -/

theorem mod_succ_mod (L c : Nat) : (c % L + 1) % L = (c + 1) % L :=
  Nat.mod_add_mod c L 1

theorem div_succ_pos (L c : Nat) (h : (c + 1) % L = 0) :
    (c + 1) / L = c / L + 1 := by
  rcases Nat.eq_zero_or_pos L with hL | hL
  · subst hL
    simp [Nat.mod_zero] at h
  · rw [Nat.succ_div, if_pos (Nat.dvd_of_mod_eq_zero h)]

theorem div_succ_ne (L c : Nat) (h : (c + 1) % L ≠ 0) :
    (c + 1) / L = c / L := by
  rcases Nat.eq_zero_or_pos L with hL | hL
  · subst hL
    simp [Nat.div_zero]
  · rw [Nat.succ_div, if_neg, Nat.add_zero]
    intro hdvd
    exact h (Nat.dvd_iff_mod_eq_zero.mp hdvd)

theorem mod_succ_ne (L c : Nat) (h : (c + 1) % L ≠ 0) :
    (c + 1) % L = c % L + 1 := by
  rcases Nat.eq_zero_or_pos L with hL | hL
  · subst hL
    simp [Nat.mod_zero]
  · have hlt : c % L < L := Nat.mod_lt _ hL
    rcases Nat.lt_or_eq_of_le (Nat.succ_le_of_lt hlt) with hlt2 | heq
    · rw [← mod_succ_mod, Nat.mod_eq_of_lt hlt2]
    · exfalso
      apply h
      rw [← mod_succ_mod, show c % L + 1 = L from heq, Nat.mod_self]

/-- One counter update of the `cols` branch, in closed form. -/
theorem grid_step (L c : Nat) :
    (if (c % L + 1) % L = 0 then ((0 : Nat), c / L + 1)
     else (c % L + 1, c / L))
      = ((c + 1) % L, (c + 1) / L) := by
  rw [mod_succ_mod]
  by_cases h : (c + 1) % L = 0
  · rw [if_pos h, h, div_succ_pos L c h]
  · rw [if_neg h, mod_succ_ne L c h, div_succ_ne L c h]

/-- One counter update of the `rows` branch, in closed form. -/
theorem grid_step_rows (L c : Nat) :
    (if (c % L + 1) % L = 0 then (c / L + 1, (0 : Nat))
     else (c / L, c % L + 1))
      = ((c + 1) / L, (c + 1) % L) := by
  rw [mod_succ_mod]
  by_cases h : (c + 1) % L = 0
  · rw [if_pos h, h, div_succ_pos L c h]
  · rw [if_neg h, mod_succ_ne L c h, div_succ_ne L c h]

/-! ## The grid cells in closed form -/

theorem cell_rows_eq (L c : Nat) : cellFor "rows" L c = (c / L, c % L) := by
  simp [cellFor]

theorem cell_rows_fst (L c : Nat) : (cellFor "rows" L c).1 = c / L := by
  simp [cellFor]

theorem cell_rows_snd (L c : Nat) : (cellFor "rows" L c).2 = c % L := by
  simp [cellFor]

theorem cell_cols_eq (lay : String) (h : ¬lay = "rows") (L c : Nat) :
    cellFor lay L c = (c % L, c / L) := by
  simp [cellFor, h]

theorem cell_zero (lay : String) (L : Nat) : cellFor lay L 0 = (0, 0) := by
  simp [cellFor]

/-! ## Invariant of the createSprite loop -/

theorem specLayersFrom_append (cfg : Config) (k : Nat) (l1 l2 : List FileEntry) :
    specLayersFrom cfg k (l1 ++ l2)
      = specLayersFrom cfg k l1 ++ specLayersFrom cfg (k + l1.length) l2 := by
  induction l1 generalizing k with
  | nil => simp [specLayersFrom]
  | cons a as ih =>
      simp only [List.cons_append, specLayersFrom, List.length_cons,
        List.append_eq]
      rw [show k + (as.length + 1) = k + 1 + as.length from by omega, ih]

theorem specLayersFrom_length (cfg : Config) (k : Nat) (l : List FileEntry) :
    (specLayersFrom cfg k l).length = l.length := by
  induction l generalizing k with
  | nil => rfl
  | cons a as ih => simp [specLayersFrom, ih]

theorem specLayersFrom_getD (cfg : Config) (l : List FileEntry) (k j : Nat)
    (hk : k < l.length) (d : Layer) (df : FileEntry) :
    (specLayersFrom cfg j l).getD k d = specLayer cfg (j + k) (l.getD k df) := by
  induction l generalizing j k with
  | nil => simp at hk
  | cons a as ih =>
      cases k with
      | zero => simp [specLayersFrom]
      | succ k =>
          simp only [specLayersFrom, List.getD_cons_succ]
          rw [ih _ _ (by simpa using hk)]
          congr 1
          omega

theorem specCells_succ (lay : String) (L n : Nat) :
    specCells lay L (n + 1) = specCells lay L n ++ [cellFor lay L n] := by
  simp [specCells, List.range_succ]

/-- One loop iteration turns the reference state for `acc` into the
reference state for `acc` extended by `f` when `f` is accepted, and leaves
the state untouched otherwise. -/
theorem processFile_stateFor (cfg : Config) (acc : List FileEntry)
    (f : FileEntry) :
    processFile cfg (stateFor cfg acc) f
      = stateFor cfg (acc ++ if accepted f then [f] else []) := by
  by_cases hf : accepted f
  · rw [if_pos hf]
    rcases acc with _ | ⟨a, as⟩
    · by_cases hlay : cfg.layout = "rows" <;>
        by_cases hmod : 1 % cfg.limit = 0
      · have hdiv : 1 / cfg.limit = 1 := by
          have := div_succ_pos cfg.limit 0 (by simpa using hmod)
          simpa using this
        simp [processFile, if_pos hf, stateFor, hlay, specLayersFrom,
          specCells, List.range_succ, createCanvas, addLayer, specLayer,
          cell_rows_eq, cell_rows_fst, cell_rows_snd, cell_zero, hmod, hdiv]
      · have hdiv : 1 / cfg.limit = 0 := by
          have := div_succ_ne cfg.limit 0 (by simpa using hmod)
          simpa using this
        have hm : 1 % cfg.limit = 1 := by
          have := mod_succ_ne cfg.limit 0 (by simpa using hmod)
          simpa using this
        simp [processFile, if_pos hf, stateFor, hlay, specLayersFrom,
          specCells, List.range_succ, createCanvas, addLayer, specLayer,
          cell_rows_eq, cell_rows_fst, cell_rows_snd, cell_zero, hmod, hdiv,
          hm]
      · have hdiv : 1 / cfg.limit = 1 := by
          have := div_succ_pos cfg.limit 0 (by simpa using hmod)
          simpa using this
        simp [processFile, if_pos hf, stateFor, hlay, specLayersFrom,
          specCells, List.range_succ, createCanvas, addLayer, specLayer,
          cellFor, cell_zero, hmod, hdiv]
      · have hdiv : 1 / cfg.limit = 0 := by
          have := div_succ_ne cfg.limit 0 (by simpa using hmod)
          simpa using this
        have hm : 1 % cfg.limit = 1 := by
          have := mod_succ_ne cfg.limit 0 (by simpa using hmod)
          simpa using this
        simp [processFile, if_pos hf, stateFor, hlay, specLayersFrom,
          specCells, List.range_succ, createCanvas, addLayer, specLayer,
          cellFor, hmod, hdiv, hm]
    · have hrev : (specLayersFrom cfg 0 (a :: (as ++ [f]))).reverse
          = specLayer cfg (as.length + 1) f ::
            (specLayersFrom cfg 0 (a :: as)).reverse := by
        rw [show a :: (as ++ [f]) = (a :: as) ++ [f] from rfl,
          specLayersFrom_append]
        simp [specLayersFrom]
      by_cases hlay : cfg.layout = "rows" <;>
        by_cases hmod :
          ((as.length + 1) % cfg.limit + 1) % cfg.limit = 0
      · have hmod2 : (as.length + 1 + 1) % cfg.limit = 0 := by
          rw [← mod_succ_mod]
          exact hmod
        have hdiv : (as.length + 1 + 1) / cfg.limit
            = (as.length + 1) / cfg.limit + 1 := div_succ_pos _ _ hmod2
        simp [processFile, if_pos hf, stateFor, hlay, hrev, specCells,
          List.range_succ, addLayer, specLayer, cell_rows_eq, cell_rows_fst,
          cell_rows_snd, hmod, hmod2, hdiv]
      · have hmod2 : ¬(as.length + 1 + 1) % cfg.limit = 0 := by
          rw [← mod_succ_mod]
          exact hmod
        have hdiv : (as.length + 1 + 1) / cfg.limit
            = (as.length + 1) / cfg.limit := div_succ_ne _ _ hmod2
        have hm : (as.length + 1 + 1) % cfg.limit
            = (as.length + 1) % cfg.limit + 1 := mod_succ_ne _ _ hmod2
        simp [processFile, if_pos hf, stateFor, hlay, hrev, specCells,
          List.range_succ, addLayer, specLayer, cell_rows_eq, cell_rows_fst,
          cell_rows_snd, hmod, hmod2, hdiv, hm]
      · have hmod2 : (as.length + 1 + 1) % cfg.limit = 0 := by
          rw [← mod_succ_mod]
          exact hmod
        have hdiv : (as.length + 1 + 1) / cfg.limit
            = (as.length + 1) / cfg.limit + 1 := div_succ_pos _ _ hmod2
        simp [processFile, if_pos hf, stateFor, hlay, hrev, specCells,
          List.range_succ, addLayer, specLayer, cell_cols_eq _ hlay, hmod,
          hmod2, hdiv]
      · have hmod2 : ¬(as.length + 1 + 1) % cfg.limit = 0 := by
          rw [← mod_succ_mod]
          exact hmod
        have hdiv : (as.length + 1 + 1) / cfg.limit
            = (as.length + 1) / cfg.limit := div_succ_ne _ _ hmod2
        have hm : (as.length + 1 + 1) % cfg.limit
            = (as.length + 1) % cfg.limit + 1 := mod_succ_ne _ _ hmod2
        simp [processFile, if_pos hf, stateFor, hlay, hrev, specCells,
          List.range_succ, addLayer, specLayer, cell_cols_eq _ hlay, hmod,
          hmod2, hdiv, hm]
  · simp [processFile, hf]

theorem foldl_processFile (cfg : Config) (fs acc : List FileEntry) :
    fs.foldl (processFile cfg) (stateFor cfg acc)
      = stateFor cfg (acc ++ fs.filter accepted) := by
  induction fs generalizing acc with
  | nil => simp
  | cons f rest ih =>
      rw [List.foldl_cons, processFile_stateFor]
      by_cases hf : accepted f
      · rw [ih]
        simp [List.filter_cons, hf]
      · rw [ih]
        simp [List.filter_cons, hf]

theorem stateFor_nil (cfg : Config) : stateFor cfg [] = initState := by
  simp [stateFor, initState, specCells, specLayersFrom, cell_zero]

/-- Master invariant: running the loop over any file list lands exactly in
the reference state for the accepted sublist. -/
theorem runFiles_stateFor (cfg : Config) (files : List FileEntry) :
    runFiles cfg files = stateFor cfg (files.filter accepted) := by
  rw [runFiles, ← stateFor_nil cfg, foldl_processFile]
  simp

theorem take_succ_getD {α : Type} (l : List α) (n : Nat) (d : α)
    (h : n < l.length) :
    l.take (n + 1) = l.take n ++ [l.getD n d] := by
  induction l generalizing n with
  | nil => simp at h
  | cons a as ih =>
      cases n with
      | zero => simp
      | succ n =>
          rw [List.take_succ_cons, List.take_succ_cons, List.getD_cons_succ,
            ih n (by simpa using h), List.cons_append]

theorem joinSep_cons_cons (sep a b : String) (t : List String) :
    joinSep sep (a :: b :: t) = a ++ sep ++ joinSep sep (b :: t) := rfl

theorem jsonLines_eq (layers : List Layer) (i : Nat) (h : i < layers.length) :
    jsonLines layers i
      = joinSep "\n," ((layers.take (i + 1)).reverse.map jsonObj) ++ "\n" := by
  induction i with
  | zero =>
      rw [take_succ_getD layers 0 placeholder h]
      simp [jsonLines, joinSep]
  | succ i ih =>
      have hi : i < layers.length := Nat.lt_of_succ_lt h
      have hlen2 : ((layers.take (i + 1)).reverse.map jsonObj).length = i + 1 := by
        simp only [List.length_map, List.length_reverse, List.length_take]
        omega
      obtain ⟨r, rs, hrs⟩ : ∃ r rs,
          (layers.take (i + 1)).reverse.map jsonObj = r :: rs := by
        rcases hlist : (layers.take (i + 1)).reverse.map jsonObj with _ | ⟨r, rs⟩
        · rw [hlist] at hlen2
          simp at hlen2
        · exact ⟨r, rs, rfl⟩
      rw [jsonLines, ih hi, take_succ_getD layers (i + 1) placeholder h,
        List.reverse_append, List.reverse_singleton, List.singleton_append,
        List.map_cons, hrs, joinSep_cons_cons]
      simp only [show ("\n," : String) = "\n" ++ "," from rfl,
        String.append_assoc]

theorem cssLines_eq (layers : List Layer) (i : Nat) (h : i < layers.length) :
    cssLines layers i
      = concatAll ((layers.take (i + 1)).reverse.map
          (fun l => cssRule l ++ "\n")) := by
  induction i with
  | zero =>
      rw [take_succ_getD layers 0 placeholder h]
      simp [cssLines, concatAll]
  | succ i ih =>
      have hi : i < layers.length := Nat.lt_of_succ_lt h
      rw [cssLines, ih hi, take_succ_getD layers (i + 1) placeholder h,
        List.reverse_append, List.reverse_singleton, List.singleton_append,
        List.map_cons]
      simp [concatAll, String.append_assoc]

theorem outputCoordinates_json (ofmt : String) (layers : List Layer)
    (hfmt : strLower ofmt = "json") (h : layers ≠ []) :
    outputCoordinates ofmt layers
      = "[\n" ++ joinSep "\n," (layers.reverse.map jsonObj) ++ "\n]\n" := by
  have hlen : 0 < layers.length := List.length_pos.mpr h
  have hie : layers.isEmpty = false := by
    cases layers
    · cases h rfl
    · rfl
  rw [outputCoordinates]
  simp only [hfmt, hie, Bool.false_eq_true, if_false, if_pos rfl, ite_true,
    eq_self_iff_true]
  rw [jsonLines_eq layers (layers.length - 1) (by omega)]
  rw [show layers.length - 1 + 1 = layers.length from by omega,
    List.take_length]
  simp only [show ("\n]\n" : String) = "\n" ++ "]\n" from rfl,
    String.append_assoc]

theorem outputCoordinates_css (ofmt : String) (layers : List Layer)
    (hfmt : ¬strLower ofmt = "json") (h : layers ≠ []) :
    outputCoordinates ofmt layers
      = concatAll (layers.reverse.map (fun l => cssRule l ++ "\n")) := by
  have hlen : 0 < layers.length := List.length_pos.mpr h
  have hie : layers.isEmpty = false := by
    cases layers
    · cases h rfl
    · rfl
  rw [outputCoordinates]
  simp only [hfmt, hie, Bool.false_eq_true, if_false, ite_false,
    if_neg hfmt]
  rw [cssLines_eq layers (layers.length - 1) (by omega)]
  rw [show layers.length - 1 + 1 = layers.length from by omega,
    List.take_length]
  simp

/-! ## Silent defaulting of configuration values -/

theorem processFile_default (lay ofmt : String) (l cs rs : Nat)
    (hlay : ¬lay = "rows") :
    processFile (⟨lay, l, cs, rs, ofmt⟩ : Config)
      = processFile (⟨"cols", l, cs, rs, "css"⟩ : Config) := by
  funext st f
  simp [processFile, hlay, show ¬("cols" : String) = "rows" from by decide]

theorem outputCoordinates_default (fmt : String)
    (hof : ¬strLower fmt = "json") (layers : List Layer) :
    outputCoordinates fmt layers = outputCoordinates "css" layers := by
  simp [outputCoordinates, hof,
    show ¬strLower "css" = "json" from by decide]

/-! ## Substring characterization of the file filter -/

theorem startsWithChars_iff (p s : List Char) :
    startsWithChars p s = true ↔ ∃ r, s = p ++ r := by
  induction p generalizing s with
  | nil => simp [startsWithChars]
  | cons a ps ih =>
      cases s with
      | nil => simp [startsWithChars]
      | cons c cs =>
          simp only [startsWithChars, Bool.and_eq_true, beq_iff_eq, ih,
            List.cons_append, List.cons.injEq]
          constructor
          · rintro ⟨rfl, r, rfl⟩
            exact ⟨r, rfl, rfl⟩
          · rintro ⟨r, rfl, rfl⟩
            exact ⟨rfl, r, rfl⟩

theorem containsSub_iff (s pat : List Char) :
    containsSub s pat = true ↔ ∃ l r, s = l ++ pat ++ r := by
  induction s with
  | nil =>
      simp only [containsSub, List.isEmpty_iff]
      constructor
      · rintro rfl
        exact ⟨[], [], rfl⟩
      · rintro ⟨l, r, h⟩
        have h2 := h.symm
        simp only [List.append_assoc, List.append_eq_nil] at h2
        exact h2.2.1
  | cons c cs ih =>
      simp only [containsSub, Bool.or_eq_true, startsWithChars_iff, ih]
      constructor
      · rintro (⟨r, hr⟩ | ⟨l, r, rfl⟩)
        · exact ⟨[], r, by simpa using hr⟩
        · exact ⟨c :: l, r, rfl⟩
      · rintro ⟨l, r, h⟩
        cases l with
        | nil =>
            left
            exact ⟨r, by simpa using h⟩
        | cons x xs =>
            right
            simp only [List.cons_append, List.cons.injEq] at h
            exact ⟨xs, r, h.2⟩

/-! ## Claims -/

/-- C1: for every file sequence processed with `layout = "cols"` and a
positive `limit = L`, the k-th accepted image is emitted with primary
(column) index `k % L` and secondary (row) index `k / L`; the recorded cell
trace has exactly one entry per accepted image, so the counters advance
only for accepted images and the secondary index steps exactly once per
full primary cycle. -/
theorem C1_cols_index_formula (cfg : Config) (files : List FileEntry)
    (hlay : cfg.layout = "cols") (hL : 0 < cfg.limit) :
    (runFiles cfg files).cells
      = (List.range (files.filter accepted).length).map
          (fun k => (k % cfg.limit, k / cfg.limit)) := by
  rw [runFiles_stateFor]
  have hcols : ¬cfg.layout = "rows" := by
    rw [hlay]
    decide
  simp [stateFor, specCells, cell_cols_eq _ hcols]

/-- Witness for C1 at a concrete folder: limit 2, four entries of which
three are accepted, giving cells (0,0), (1,0), (0,1). -/
theorem C1_cols_index_formula_witness :
    0 < 2 ∧
      (runFiles (⟨"cols", 2, 100, 50, "css"⟩ : Config)
        [⟨"a.png", true⟩, ⟨"readme.txt", true⟩, ⟨"b.png", true⟩,
         ⟨"c.png", true⟩]).cells
      = [(0, 0), (1, 0), (0, 1)] := by
  refine ⟨by decide, ?_⟩
  rw [C1_cols_index_formula _ _ rfl (by decide)]
  decide

/-- C2: every accepted image's layer is placed at
`(col_spacing * col_index, row_spacing * row_index)` where the index pair
for ordinal `k` is the grid cell `cellFor layout limit k` — columns primary
under `cols`, rows primary under `rows` — and the `rows` cell is the exact
transpose of the `cols` cell, so the x/y roles swap with the layout axis
while the numeric index sequence is preserved. -/
theorem C2_placement_coordinates (cfg : Config) (files : List FileEntry)
    (k : Nat) (hk : k < (files.filter accepted).length) :
    (runFiles cfg files).doc.reverse.getD (k + 1) placeholder
        = { name := stripExt ((files.filter accepted).getD k
              { name := "", isFile := false }).name
            x := cfg.col_spacing * (cellFor cfg.layout cfg.limit k).1
            y := cfg.row_spacing * (cellFor cfg.layout cfg.limit k).2 }
      ∧ ∀ L j : Nat, cellFor "rows" L j
          = ((cellFor "cols" L j).2, (cellFor "cols" L j).1) := by
  constructor
  · rw [runFiles_stateFor]
    have hA : files.filter accepted ≠ [] := by
      intro h0
      rw [h0] at hk
      simp at hk
    have hie : (files.filter accepted).isEmpty = false := by
      rcases hfa : files.filter accepted with _ | ⟨x, xs⟩
      · exact absurd hfa hA
      · rfl
    simp only [stateFor, hie, Bool.false_eq_true, if_false,
      List.reverse_append, List.reverse_reverse, List.reverse_cons,
      List.reverse_nil, List.nil_append, List.singleton_append]
    rw [List.getD_cons_succ,
      specLayersFrom_getD cfg _ k 0 hk placeholder
        { name := "", isFile := false }]
    simp [specLayer]
  · intro L j
    rw [cell_rows_eq, cell_cols_eq "cols" (by decide)]

/-- Witness for C2: under `rows` layout with limit 2 the second accepted
image (ordinal 1) lands at cell (0, 1), hence at coordinates (0, 50). -/
theorem C2_placement_coordinates_witness :
    (runFiles (⟨"rows", 2, 100, 50, "css"⟩ : Config)
        [⟨"a.png", true⟩, ⟨"b.png", true⟩, ⟨"c.png", true⟩]).doc.reverse.getD
        2 placeholder
      = { name := "b", x := 0, y := 50 } :=
  (C2_placement_coordinates (⟨"rows", 2, 100, 50, "css"⟩ : Config)
    [⟨"a.png", true⟩, ⟨"b.png", true⟩, ⟨"c.png", true⟩] 1
    (by decide)).1.trans (by decide)

/-- C3 (counterexample): on a folder with `a.png` then `b.png` (so layer `b`
is topmost), JSON export emits `a`'s object before `b`'s — the layer added
first is printed first, refuting the claimed topmost-first order in which
`b`'s object would come first. -/
theorem C3_export_order_counterexample :
    (createSprite (⟨"cols", 1, 100, 50, "json"⟩ : Config)
        (some [⟨"a.png", true⟩, ⟨"b.png", true⟩])).output
      = "[\n" ++ jsonObj ⟨"a", 0, 0⟩ ++ "\n," ++ jsonObj ⟨"b", 0, 50⟩ ++
          "\n]\n"
    ∧ ¬(createSprite (⟨"cols", 1, 100, 50, "json"⟩ : Config)
        (some [⟨"a.png", true⟩, ⟨"b.png", true⟩])).output
      = "[\n" ++ jsonObj ⟨"b", 0, 50⟩ ++ "\n," ++ jsonObj ⟨"a", 0, 0⟩ ++
          "\n]\n" :=
  ⟨by decide, by decide⟩

/-- C3 (amended): in both output encodings the coordinate exporter emits
exactly one record per layer, iterating from the bottommost layer to the
topmost — that is, in placement/addition order: the stream lists the
accepted images' records in acceptance order, the last-placed image's
record printed last (for layers `a` then `b`, `a`'s record precedes `b`'s),
as a JSON array when the lowercased format is `json` and as CSS rules
otherwise. -/
theorem C3_export_order_amended (cfg : Config) (files : List FileEntry)
    (hne : ¬files.filter accepted = []) :
    (createSprite cfg (some files)).output
      = if strLower cfg.output_format = "json" then
          "[\n" ++ joinSep "\n,"
            ((specLayersFrom cfg 0 (files.filter accepted)).map jsonObj) ++
            "\n]\n"
        else
          concatAll ((specLayersFrom cfg 0 (files.filter accepted)).map
            (fun l => cssRule l ++ "\n")) := by
  have hlen : 0 < (files.filter accepted).length := List.length_pos.mpr hne
  have hlne : ¬(specLayersFrom cfg 0 (files.filter accepted)).reverse = [] := by
    intro hcon
    have hl := congrArg List.length hcon
    rw [List.length_reverse, specLayersFrom_length, List.length_nil] at hl
    omega
  have hie : (files.filter accepted).isEmpty = false := by
    rcases hfa : files.filter accepted with _ | ⟨x, xs⟩
    · exact absurd hfa hne
    · rfl
  simp only [createSprite, runFiles_stateFor, stateFor, hie, Bool.not_false,
    if_true, ite_true, Bool.false_eq_true, if_false, ite_false]
  rw [cleanUp, List.dropLast_concat]
  by_cases hfmt : strLower cfg.output_format = "json"
  · rw [if_pos hfmt, outputCoordinates_json cfg.output_format _ hfmt hlne,
      List.reverse_reverse]
  · rw [if_neg hfmt, outputCoordinates_css cfg.output_format _ hfmt hlne,
      List.reverse_reverse]

/-- Witness for the amended C3 on the two-image folder, in both the json
and the css output formats. -/
theorem C3_export_order_amended_witness :
    ((createSprite (⟨"cols", 1, 100, 50, "json"⟩ : Config)
        (some [⟨"a.png", true⟩, ⟨"b.png", true⟩])).output
      = "[\n" ++ joinSep "\n,"
          ((specLayersFrom (⟨"cols", 1, 100, 50, "json"⟩ : Config) 0
            (([⟨"a.png", true⟩, ⟨"b.png", true⟩] :
              List FileEntry).filter accepted)).map jsonObj) ++ "\n]\n")
    ∧ ((createSprite (⟨"cols", 1, 100, 50, "css"⟩ : Config)
        (some [⟨"a.png", true⟩, ⟨"b.png", true⟩])).output
      = concatAll ((specLayersFrom (⟨"cols", 1, 100, 50, "css"⟩ : Config) 0
          (([⟨"a.png", true⟩, ⟨"b.png", true⟩] :
            List FileEntry).filter accepted)).map
          (fun l => cssRule l ++ "\n"))) := by
  constructor
  · rw [C3_export_order_amended (⟨"cols", 1, 100, 50, "json"⟩ : Config)
      [⟨"a.png", true⟩, ⟨"b.png", true⟩] (by decide)]
    decide
  · rw [C3_export_order_amended (⟨"cols", 1, 100, 50, "css"⟩ : Config)
      [⟨"a.png", true⟩, ⟨"b.png", true⟩] (by decide)]
    decide

/-- C4: evaluating the run at the failing input — a selected folder whose
only entry is `readme.txt` (zero supported images) — the run ends with no
canvas, no output and, contrary to the claim, no retry prompt; the retry
prompt fires only in the other branch, when the folder selection itself was
falsy (the user cancelled the dialog). -/
theorem C4_no_reprompt_on_empty_folder :
    createSprite (⟨"cols", 1, 100, 50, "css"⟩ : Config)
        (some [⟨"readme.txt", true⟩])
      = ⟨0, false, "", false⟩
    ∧ (createSprite (⟨"cols", 1, 100, 50, "css"⟩ : Config) none).reprompted
      = true :=
  ⟨by decide, rfl⟩

/-- C5 (counterexample): a configuration with `limit = 0`, an unrecognized
layout `diag` and an unrecognized output format `xml` is not rejected —
the run processes the image, finalizes the canvas and emits css-style
output, so no ConfigurationError is reported before processing. -/
theorem C5_no_config_error_counterexample :
    (createSprite (⟨"diag", 0, 100, 50, "xml"⟩ : Config)
        (some [⟨"a.png", true⟩])).finalized = true
    ∧ (createSprite (⟨"diag", 0, 100, 50, "xml"⟩ : Config)
        (some [⟨"a.png", true⟩])).output
      = ".a \x7bbackground-position: -0 -0;\x7d\n" :=
  ⟨by decide, by decide⟩

/-- C5 (amended): the script performs no configuration validation and has
no ConfigurationError: a run with `limit <= 0` (here 0), an unrecognized
layout and an unrecognized output format proceeds normally and behaves
exactly like the same run under the default `cols`/`css` interpretation. -/
theorem C5_amended_no_validation (lay ofmt : String) (l cs rs : Nat)
    (files : List FileEntry) (hlay : ¬lay = "rows")
    (hof : ¬strLower ofmt = "json") :
    createSprite (⟨lay, l, cs, rs, ofmt⟩ : Config) (some files)
      = createSprite (⟨"cols", l, cs, rs, "css"⟩ : Config) (some files) := by
  have hrun : runFiles (⟨lay, l, cs, rs, ofmt⟩ : Config) files
      = runFiles (⟨"cols", l, cs, rs, "css"⟩ : Config) files := by
    rw [runFiles, runFiles, processFile_default _ _ _ _ _ hlay]
  simp only [createSprite, hrun]
  rw [outputCoordinates_default _ hof]

/-- Witness for the amended C5 at the concrete invalid configuration. -/
theorem C5_amended_no_validation_witness :
    createSprite (⟨"diag", 0, 100, 50, "xml"⟩ : Config)
        (some [⟨"a.png", true⟩])
      = createSprite (⟨"cols", 0, 100, 50, "css"⟩ : Config)
          (some [⟨"a.png", true⟩]) :=
  C5_amended_no_validation "diag" "xml" 0 100 50 [⟨"a.png", true⟩]
    (by decide) (by decide)

/-- C6: the file filter accepts a name exactly when its lowercase form
contains one of `.jpg`, `.jpeg`, `.gif`, `.png`, `.tif` as a substring
(not as a suffix); in particular it accepts `photo.PNG`, `a.b.jpeg` and
`notes.jpgx`, and rejects `readme.txt` and a bare name without an
extension. -/
theorem C6_filter_substring_iff :
    (∀ name : String, isValidImageName name = true
        ↔ ∃ ext ∈ supported_types, ∃ l r : List Char,
            (strLower name).data = l ++ ext.data ++ r)
    ∧ isValidImageName "photo.PNG" = true
    ∧ isValidImageName "a.b.jpeg" = true
    ∧ isValidImageName "notes.jpgx" = true
    ∧ isValidImageName "readme.txt" = false
    ∧ isValidImageName "picture" = false := by
  refine ⟨fun name => ?_, by decide, by decide, by decide, by decide,
    by decide⟩
  rw [isValidImageName, isValidFile, List.any_eq_true]
  constructor
  · rintro ⟨ext, hmem, hc⟩
    exact ⟨ext, hmem, (containsSub_iff _ _).mp hc⟩
  · rintro ⟨ext, hmem, l, r, hsplit⟩
    exact ⟨ext, hmem, (containsSub_iff _ _).mpr ⟨l, r, hsplit⟩⟩

/-- C7: in JSON mode the export stream is the line `[`, then one object per
layer with a comma between consecutive objects and no comma after the last,
then `]`; by the definitions of `jsonObj` and `cssRule` the `x`/`y` values
are emitted as quoted strings and `y` carries a leading minus sign in both
the JSON and the CSS output. -/
theorem C7_json_stream_shape (layers : List Layer) (h : ¬layers = []) :
    outputCoordinates "json" layers
        = "[\n" ++ joinSep "\n," (layers.reverse.map jsonObj) ++ "\n]\n"
    ∧ outputCoordinates "css" layers
        = concatAll (layers.reverse.map (fun l => cssRule l ++ "\n")) :=
  ⟨outputCoordinates_json "json" layers (by decide) h,
    outputCoordinates_css "css" layers (by decide) h⟩

/-- Witness for C7 on a two-layer document. -/
theorem C7_json_stream_shape_witness :
    outputCoordinates "json" [⟨"b", 0, 50⟩, ⟨"a", 0, 0⟩]
        = "[\n" ++ joinSep "\n,"
            (([⟨"b", 0, 50⟩, ⟨"a", 0, 0⟩] :
              List Layer).reverse.map jsonObj) ++ "\n]\n"
    ∧ outputCoordinates "css" [⟨"b", 0, 50⟩, ⟨"a", 0, 0⟩]
        = concatAll (([⟨"b", 0, 50⟩, ⟨"a", 0, 0⟩] :
            List Layer).reverse.map (fun l => cssRule l ++ "\n")) :=
  C7_json_stream_shape [⟨"b", 0, 50⟩, ⟨"a", 0, 0⟩] (by decide)

/-- C8: the oversized canvas is created lazily and exactly once per run —
one creation when at least one image is accepted, none otherwise — and when
no image is accepted neither finalization nor export runs: the outcome is
empty with no canvas and no output. -/
theorem C8_lazy_canvas (cfg : Config) (files : List FileEntry) :
    (runFiles cfg files).creations
        = (if (files.filter accepted).isEmpty then 0 else 1)
    ∧ (runFiles cfg files).new_canvas = !(files.filter accepted).isEmpty
    ∧ ((files.filter accepted).isEmpty = true →
        createSprite cfg (some files)
          = { canvasCreations := 0, finalized := false, output := ""
              reprompted := false }) := by
  refine ⟨?_, ?_, ?_⟩
  · rw [runFiles_stateFor]
    rfl
  · rw [runFiles_stateFor]
    rfl
  · intro hie
    simp [createSprite, runFiles_stateFor, stateFor, hie]

/-- Witness for C8 on a folder with no accepted image. -/
theorem C8_lazy_canvas_witness :
    createSprite (⟨"cols", 1, 100, 50, "css"⟩ : Config)
        (some [⟨"notes.txt", true⟩])
      = { canvasCreations := 0, finalized := false, output := ""
          reprompted := false } :=
  (C8_lazy_canvas (⟨"cols", 1, 100, 50, "css"⟩ : Config)
    [⟨"notes.txt", true⟩]).2.2 (by decide)

/-- C9: unrecognized configuration values are silently defaulted, not
rejected: any OUTPUT_FORMAT whose lowercase form is not `json` renders
exactly as `css` (`OUTPUT_FORMAT` is lowercased first, so `JSON` renders as
`json`), and any LAYOUT other than the exact string `rows` — the comparison
is case-sensitive, so `ROWS` qualifies — advances the grid counters exactly
as `cols` does. -/
theorem C9_silent_defaults :
    (∀ (fmt : String) (layers : List Layer), ¬strLower fmt = "json" →
        outputCoordinates fmt layers = outputCoordinates "css" layers)
    ∧ (∀ (lay : String) (l cs rs : Nat) (ofmt : String)
          (files : List FileEntry), ¬lay = "rows" →
        runFiles (⟨lay, l, cs, rs, ofmt⟩ : Config) files
          = runFiles (⟨"cols", l, cs, rs, ofmt⟩ : Config) files)
    ∧ (∀ layers : List Layer,
        outputCoordinates "JSON" layers = outputCoordinates "json" layers)
    ∧ ¬("ROWS" : String) = "rows" := by
  refine ⟨fun fmt layers hof => outputCoordinates_default fmt hof layers,
    fun lay l cs rs ofmt files hlay => ?_, fun layers => ?_, by decide⟩
  · rw [runFiles, runFiles, processFile_default _ _ _ _ _ hlay,
      processFile_default "cols" ofmt _ _ _ (by decide)]
  · simp [outputCoordinates, show strLower "JSON" = "json" from by decide,
      show strLower "json" = "json" from by decide]

/-- Witness for C9: the unrecognized format `xml` renders as `css`, and the
layout `ROWS` runs the counters as `cols` does. -/
theorem C9_silent_defaults_witness :
    outputCoordinates "xml" [⟨"a", 0, 0⟩]
        = outputCoordinates "css" [⟨"a", 0, 0⟩]
    ∧ runFiles (⟨"ROWS", 2, 100, 50, "css"⟩ : Config) [⟨"a.png", true⟩]
        = runFiles (⟨"cols", 2, 100, 50, "css"⟩ : Config) [⟨"a.png", true⟩] :=
  ⟨C9_silent_defaults.1 "xml" [⟨"a", 0, 0⟩] (by decide),
    C9_silent_defaults.2.1 "ROWS" 2 100 50 "css" [⟨"a.png", true⟩]
      (by decide)⟩

/-- C10: with `LIMIT = 0` the wrap test `(counter + 1) % 0 = 0` is never
true, so no reset ever fires and no fault occurs: the primary counter
increments without bound while the secondary stays 0 — the k-th accepted
image reads cell `(k, 0)` under the default column layout and `(0, k)`
under `rows`. -/
theorem C10_limit_zero (cs rs : Nat) (ofmt : String)
    (files : List FileEntry) :
    (runFiles (⟨"cols", 0, cs, rs, ofmt⟩ : Config) files).cells
        = (List.range (files.filter accepted).length).map (fun k => (k, 0))
    ∧ (runFiles (⟨"rows", 0, cs, rs, ofmt⟩ : Config) files).cells
        = (List.range (files.filter accepted).length).map (fun k => (0, k))
    ∧ ∀ k : Nat, ((k + 1) % 0 = 0) = False := by
  refine ⟨?_, ?_, ?_⟩
  · rw [runFiles_stateFor]
    simp [stateFor, specCells, cell_cols_eq "cols" (by decide)]
  · rw [runFiles_stateFor]
    simp [stateFor, specCells, cell_rows_eq]
  · intro k
    simp

end Folder2Sprite
